import Mathlib

/-!
Verification of the `logging` package of aqyuki/util (src/logging/logger.go),
as a shallow embedding in Lean 4.

The package configures a zap logger from environment variables, keeps a
process-wide default instance behind a `sync.Once` guard, and binds loggers
to `context.Context` values.  The zap engine itself is opaque: we model a
built logger by the configuration that produced it (the spec's data model
says the configuration fully determines the logger's behaviour), and the
fallible `config.Build()` call as an explicit build function supplied to
the factory.  Go pointer values of type `*zap.SugaredLogger` are modelled
as `Option SugaredLogger`, with `none` standing for the nil pointer.
-/

namespace Logging

/-- zapcore.Level, restricted to the levels the package mentions. -/
inductive Level where
  | debug
  | info
  | warn
  | error
  | dpanic
  | panic
  | fatal
  deriving DecidableEq, Repr

/-- zap.Config, restricted to the fields the package touches: the
development flag chosen by the preset constructor and the level set by
`config.Level = zap.NewAtomicLevelAt(...)`. -/
structure Config where
  development : Bool
  level : Level
  deriving DecidableEq, Repr

/-- zap.NewDevelopmentConfig(): development preset (debug level base). -/
def NewDevelopmentConfig : Config := { development := true, level := Level.debug }

/-- zap.NewProductionConfig(): production preset (info level base). -/
def NewProductionConfig : Config := { development := false, level := Level.info }

/-- A `*zap.Logger` value: either one built from a configuration, or the
no-op logger returned by `zap.NewNop()`. -/
inductive ZapLogger where
  | built : Config → ZapLogger
  | nop : ZapLogger
  deriving DecidableEq, Repr

/-- A `zap.SugaredLogger` value, as produced by `(*zap.Logger).Sugar()`. -/
structure SugaredLogger where
  base : ZapLogger
  deriving DecidableEq, Repr

/-- `(*zap.Logger).Sugar()`. -/
def ZapLogger.sugar (l : ZapLogger) : SugaredLogger := ⟨l⟩

/-- Go's `strings.ToLower`, character-wise lower-casing (the inputs here
are ASCII, where Go's and Lean's simple case folding agree). -/
def goToLower (s : String) : String := ⟨s.data.map Char.toLower⟩

/-- Go's `strings.TrimSpace`: drop leading and trailing whitespace. -/
def goTrimSpace (s : String) : String :=
  ⟨((s.data.dropWhile Char.isWhitespace).reverse.dropWhile Char.isWhitespace).reverse⟩

/-- `stringToZapLevel` from logger.go: switch on `strings.ToLower(level)`
over the seven level names, defaulting to info. -/
def stringToZapLevel (level : String) : Level :=
  if goToLower level = "debug" then Level.debug
  else if goToLower level = "info" then Level.info
  else if goToLower level = "warn" then Level.warn
  else if goToLower level = "error" then Level.error
  else if goToLower level = "dpanic" then Level.dpanic
  else if goToLower level = "panic" then Level.panic
  else if goToLower level = "fatal" then Level.fatal
  else Level.info

/-- The configuration `NewLogger` assembles before calling `config.Build()`:
the preset selected by the develop flag, with its level replaced by the
parsed level string. -/
def loggerConfig (develop : Bool) (level : String) : Config :=
  let base := if develop then NewDevelopmentConfig else NewProductionConfig
  { base with level := stringToZapLevel level }

/-- `NewLogger` from logger.go.  `build` stands for the external
`config.Build()` call of the zap engine; on error the code substitutes
`zap.NewNop()`, and the result is sugared. -/
def NewLogger (build : Config → Except String ZapLogger)
    (develop : Bool) (level : String) : SugaredLogger :=
  let config := loggerConfig develop level
  let logger : ZapLogger :=
    match build config with
    | Except.ok l => l
    | Except.error _ => ZapLogger.nop
  logger.sugar

/-- The zap engine's `config.Build()` in the normal, successful case: it
yields a logger fully determined by the configuration (the spec's data
model: the configuration fully determines the resulting logger). -/
def zapBuild : Config → Except String ZapLogger :=
  fun c => Except.ok (ZapLogger.built c)

/-- `NewLoggerFromEnv` from logger.go.  `env` stands for `os.Getenv`
(returning "" for unset variables).  The mode flag trims and lower-cases
`LOG_MODE` and compares with "develop"; `LOG_LEVEL` is passed through
unchanged. -/
def NewLoggerFromEnv (build : Config → Except String ZapLogger)
    (env : String → String) : SugaredLogger :=
  let develop := goToLower (goTrimSpace (env "LOG_MODE")) == "develop"
  let level := env "LOG_LEVEL"
  NewLogger build develop level

/-- A key stored in a `context.Context`.  Go compares interface keys by
dynamic type and value, so a key of the package-private type
`contextKey` (a named string type) is distinct from a plain `string` key
or any other named type with the same underlying string. -/
inductive CtxKey where
  | contextKeyTy : String → CtxKey
  | stringTy : String → CtxKey
  | otherTy : Nat → String → CtxKey
  deriving DecidableEq, Repr

/-- A value stored in a `context.Context`: a `*zap.SugaredLogger`
(possibly the typed nil pointer), or a value of some other dynamic type.
The type assertion `.(*zap.SugaredLogger)` succeeds exactly on the
`loggerPtr` constructor, including the nil pointer. -/
inductive CtxVal where
  | loggerPtr : Option SugaredLogger → CtxVal
  | str : String → CtxVal
  | nat : Nat → CtxVal
  deriving DecidableEq, Repr

/-- A non-nil `context.Context`: the chain of `WithValue` bindings, most
recent first (the root `Background` context carries no values). -/
abbrev Context := List (CtxKey × CtxVal)

/-- `ctx.Value(key)`: checks the most recent binding and then walks up the
parent chain; `none` when no binding for the key exists. -/
def ctxValue : Context → CtxKey → Option CtxVal
  | [], _ => none
  | (k, v) :: rest, key => if k = key then some v else ctxValue rest key

/-- `context.WithValue(parent, key, val)`: panics (modelled as
`Except.error` with the Go runtime's message) when the parent context is
nil, otherwise derives a child context with the new binding. -/
def contextWithValue (parent : Option Context) (key : CtxKey) (val : CtxVal) :
    Except String Context :=
  match parent with
  | none => Except.error "cannot create context from nil parent"
  | some ctx => Except.ok ((key, val) :: ctx)

/-- `loggerKey = contextKey("logger")` from logger.go: a value of the
package-private named type, not a plain string. -/
def loggerKey : CtxKey := CtxKey.contextKeyTy "logger"

/-- `WithLogger` from logger.go: `context.WithValue(ctx, loggerKey, logger)`.
The logger argument is a `*zap.SugaredLogger`, so it may be nil. -/
def WithLogger (ctx : Option Context) (logger : Option SugaredLogger) :
    Except String Context :=
  contextWithValue ctx loggerKey (CtxVal.loggerPtr logger)

/-- The package-level mutable state: the `defaultLogger` pointer variable
(nil before first use), the `sync.Once` completion flag, and a ghost
counter of how many times the once-guarded construction body ran. -/
structure GState where
  defaultLogger : Option SugaredLogger
  onceDone : Bool
  buildCount : Nat
  deriving DecidableEq, Repr

/-- Process start: `defaultLogger` is nil and the once guard has not run. -/
def initialGState : GState := { defaultLogger := none, onceDone := false, buildCount := 0 }

/-- `DefaultLogger` from logger.go: `defaultLoggerOnce.Do(...)` runs the
construction body only if it has never run, then the current
`defaultLogger` pointer is returned.  State is threaded explicitly. -/
def DefaultLogger (st : GState) (build : Config → Except String ZapLogger)
    (env : String → String) : Option SugaredLogger × GState :=
  let st' :=
    if st.onceDone then st
    else { defaultLogger := some (NewLoggerFromEnv build env),
           onceDone := true,
           buildCount := st.buildCount + 1 }
  (st'.defaultLogger, st')

/-- `FromContext` from logger.go: type-assert the value stored under
`loggerKey`; on success (any `*zap.SugaredLogger`, nil included) return
it, otherwise fall back to `DefaultLogger()`. -/
def FromContext (ctx : Context) (st : GState)
    (build : Config → Except String ZapLogger) (env : String → String) :
    Option SugaredLogger × GState :=
  match ctxValue ctx loggerKey with
  | some (CtxVal.loggerPtr l) => (l, st)
  | _ => DefaultLogger st build env

/-- A sequence of `n + 1` successive calls to `DefaultLogger` starting
from process start, returning the last call's result and the state after
it. -/
def callsDefault (build : Config → Except String ZapLogger)
    (env : String → String) : Nat → Option SugaredLogger × GState
  | 0 => DefaultLogger initialGState build env
  | n + 1 => DefaultLogger (callsDefault build env n).2 build env

/-- The seven level names recognised by `stringToZapLevel`. -/
def levelNames : List String :=
  ["debug", "info", "warn", "error", "dpanic", "panic", "fatal"]

/-- Claim C3: level resolution is a total function — every string whose
case-insensitive form is a recognised level name maps to that level, and
every other string (the empty string included) maps to info; no input
produces an error. -/
theorem stringToZapLevel_total (s : String) :
    (goToLower s = "debug" → stringToZapLevel s = Level.debug) ∧
    (goToLower s = "info" → stringToZapLevel s = Level.info) ∧
    (goToLower s = "warn" → stringToZapLevel s = Level.warn) ∧
    (goToLower s = "error" → stringToZapLevel s = Level.error) ∧
    (goToLower s = "dpanic" → stringToZapLevel s = Level.dpanic) ∧
    (goToLower s = "panic" → stringToZapLevel s = Level.panic) ∧
    (goToLower s = "fatal" → stringToZapLevel s = Level.fatal) ∧
    (goToLower s ∉ levelNames → stringToZapLevel s = Level.info) := by
  have hdef : goToLower s ∉ levelNames → stringToZapLevel s = Level.info := by
    intro h
    simp only [levelNames, List.mem_cons, List.not_mem_nil, or_false, not_or] at h
    obtain ⟨h1, h2, h3, h4, h5, h6, h7⟩ := h
    unfold stringToZapLevel
    rw [if_neg h1, if_neg h2, if_neg h3, if_neg h4, if_neg h5, if_neg h6, if_neg h7]
  refine ⟨?_, ?_, ?_, ?_, ?_, ?_, ?_, hdef⟩ <;>
    (intro h; unfold stringToZapLevel; rw [h]; decide)

/-- Witness for C3 at the concrete input "DeBuG". -/
theorem stringToZapLevel_total_witness :
    goToLower "DeBuG" = "debug" ∧ stringToZapLevel "DeBuG" = Level.debug :=
  ⟨by decide, (stringToZapLevel_total "DeBuG").1 (by decide)⟩

/-- Claim C4, counterexample: " WARN " trims and folds to the recognised
name "warn", yet `stringToZapLevel` resolves it to info, not warn — the
level string is lower-cased but never whitespace-trimmed. -/
theorem stringToZapLevel_untrimmed_cex :
    goToLower (goTrimSpace " WARN ") = "warn" ∧
    stringToZapLevel " WARN " ≠ Level.warn ∧
    stringToZapLevel " WARN " = Level.info := by decide

/-- Claim C4, amended: level parsing is case-insensitive but not
whitespace-trimmed — every level string that matches a recognised name
only after trimming (its untrimmed case-folded form matches none)
resolves to the info default, not to that level. -/
theorem stringToZapLevel_whitespace_default (s : String)
    (_h1 : goToLower (goTrimSpace s) ∈ levelNames)
    (h2 : goToLower s ∉ levelNames) :
    stringToZapLevel s = Level.info := by
  simp only [levelNames, List.mem_cons, List.not_mem_nil, or_false, not_or] at h2
  obtain ⟨g1, g2, g3, g4, g5, g6, g7⟩ := h2
  unfold stringToZapLevel
  rw [if_neg g1, if_neg g2, if_neg g3, if_neg g4, if_neg g5, if_neg g6, if_neg g7]

/-- Witness for the amended C4 at the concrete input " WARN ". -/
theorem stringToZapLevel_whitespace_default_witness :
    goToLower (goTrimSpace " WARN ") ∈ levelNames ∧
    goToLower " WARN " ∉ levelNames ∧
    stringToZapLevel " WARN " = Level.info :=
  ⟨by decide, by decide,
    stringToZapLevel_whitespace_default " WARN " (by decide) (by decide)⟩

/-- Claim C5: when the engine's `config.Build` fails on the resolved
configuration, `NewLogger` neither propagates the error nor returns nil:
it returns the sugared no-op logger. -/
theorem newLogger_build_failure (build : Config → Except String ZapLogger)
    (develop : Bool) (level : String) (msg : String)
    (h : build (loggerConfig develop level) = Except.error msg) :
    NewLogger build develop level = ZapLogger.nop.sugar := by
  simp [NewLogger, h]

/-- Witness for C5 with a build function that always fails. -/
theorem newLogger_build_failure_witness :
    (fun _ : Config => (Except.error "invalid sink" : Except String ZapLogger))
        (loggerConfig false "info") = Except.error "invalid sink" ∧
    NewLogger (fun _ => Except.error "invalid sink") false "info" = ZapLogger.nop.sugar :=
  ⟨rfl, newLogger_build_failure _ false "info" "invalid sink" rfl⟩

/-- Claim C7: with the successfully-building engine, `NewLoggerFromEnv`
yields a development-mode logger exactly when the trimmed, case-folded
`LOG_MODE` equals "develop" and a production-mode logger otherwise, and
in both cases the level comes from the unchanged `LOG_LEVEL` string. -/
theorem newLoggerFromEnv_mode (env : String → String) :
    (goToLower (goTrimSpace (env "LOG_MODE")) = "develop" →
      NewLoggerFromEnv zapBuild env =
        (ZapLogger.built { development := true,
                           level := stringToZapLevel (env "LOG_LEVEL") }).sugar) ∧
    (goToLower (goTrimSpace (env "LOG_MODE")) ≠ "develop" →
      NewLoggerFromEnv zapBuild env =
        (ZapLogger.built { development := false,
                           level := stringToZapLevel (env "LOG_LEVEL") }).sugar) := by
  constructor <;> intro h <;>
    simp [NewLoggerFromEnv, NewLogger, loggerConfig, zapBuild,
          NewDevelopmentConfig, NewProductionConfig, h]

/-- A concrete environment: `LOG_MODE` padded and mixed-case, `LOG_LEVEL`
set to "warn". -/
def envDevWarn : String → String :=
  fun k => if k = "LOG_MODE" then " Develop " else "warn"

/-- Witness for C7 at the concrete environment `envDevWarn`. -/
theorem newLoggerFromEnv_mode_witness :
    goToLower (goTrimSpace (envDevWarn "LOG_MODE")) = "develop" ∧
    NewLoggerFromEnv zapBuild envDevWarn =
      (ZapLogger.built { development := true,
                         level := stringToZapLevel (envDevWarn "LOG_LEVEL") }).sugar :=
  ⟨by decide, (newLoggerFromEnv_mode envDevWarn).1 (by decide)⟩

/-- After any run of successive `DefaultLogger` calls the package state is
fully determined: the once guard is spent, the construction ran exactly
once, and `defaultLogger` holds the logger built from the environment. -/
theorem callsDefault_state (build : Config → Except String ZapLogger)
    (env : String → String) (n : Nat) :
    (callsDefault build env n).2 =
      { defaultLogger := some (NewLoggerFromEnv build env),
        onceDone := true, buildCount := 1 } := by
  induction n with
  | zero => simp [callsDefault, DefaultLogger, initialGState]
  | succ n ih => simp [callsDefault, DefaultLogger, ih]

/-- Claim C1: every call in any sequence of `DefaultLogger` calls returns
the same, non-nil instance (the one `NewLoggerFromEnv` built), and the
once-guarded construction body has run exactly once. -/
theorem defaultLogger_singleton (build : Config → Except String ZapLogger)
    (env : String → String) (n : Nat) :
    (callsDefault build env n).1 = some (NewLoggerFromEnv build env) ∧
    (callsDefault build env n).2.buildCount = 1 := by
  refine ⟨?_, by rw [callsDefault_state]⟩
  cases n with
  | zero => simp [callsDefault, DefaultLogger, initialGState]
  | succ n => simp [callsDefault, DefaultLogger, callsDefault_state]

/-- Claim C2: round-trip of context binding — retrieving from a context
just extended with a logger returns exactly that logger, for every non-nil
context, every logger value, and any package state. -/
theorem withLogger_fromContext_roundtrip (ctx : Context) (L : Option SugaredLogger)
    (st : GState) (build : Config → Except String ZapLogger)
    (env : String → String) :
    ∃ ctx', WithLogger (some ctx) L = Except.ok ctx' ∧
      FromContext ctx' st build env = (L, st) := by
  refine ⟨(loggerKey, CtxVal.loggerPtr L) :: ctx, rfl, ?_⟩
  simp [FromContext, ctxValue]

/-- Claim C6: on a context whose `loggerKey` slot is absent or holds a
value that is not a `*zap.SugaredLogger`, `FromContext` behaves exactly as
`DefaultLogger` — same result, same state change, never an error. -/
theorem fromContext_missing_default (ctx : Context) (st : GState)
    (build : Config → Except String ZapLogger) (env : String → String)
    (h : ∀ l, ctxValue ctx loggerKey ≠ some (CtxVal.loggerPtr l)) :
    FromContext ctx st build env = DefaultLogger st build env := by
  rcases hv : ctxValue ctx loggerKey with _ | v
  · simp [FromContext, hv]
  · cases v with
    | loggerPtr l => exact absurd hv (h l)
    | str s => simp [FromContext, hv]
    | nat n => simp [FromContext, hv]

/-- Witness for C6: a context whose `loggerKey` slot holds a string, not a
logger. -/
theorem fromContext_missing_default_witness :
    (∀ l, ctxValue [(loggerKey, CtxVal.str "oops")] loggerKey ≠
        some (CtxVal.loggerPtr l)) ∧
    FromContext [(loggerKey, CtxVal.str "oops")] initialGState zapBuild (fun _ => "") =
      DefaultLogger initialGState zapBuild (fun _ => "") :=
  ⟨fun l => by simp [ctxValue],
   fromContext_missing_default _ _ _ _ (fun l => by simp [ctxValue])⟩

/-- Claim C8: attaching to a nil context panics with the Go runtime's
message, while attaching to any non-nil context succeeds and yields a
derived context. -/
theorem withLogger_nil_panics :
    (∀ L, WithLogger none L = Except.error "cannot create context from nil parent") ∧
    (∀ (ctx : Context) (L : Option SugaredLogger),
      ∃ ctx', WithLogger (some ctx) L = Except.ok ctx') :=
  ⟨fun _ => rfl, fun ctx L => ⟨(loggerKey, CtxVal.loggerPtr L) :: ctx, rfl⟩⟩

/-- Claim C9: a binding under any key other than the package-private
`loggerKey` — in particular a plain string key "logger" — is invisible to
`FromContext`: adding it changes neither the result nor the state
evolution, so it can neither shadow a `WithLogger` binding nor be
returned. -/
theorem fromContext_key_noninterference (k : CtxKey) (hk : k ≠ loggerKey)
    (v : CtxVal) (ctx : Context) (st : GState)
    (build : Config → Except String ZapLogger) (env : String → String) :
    FromContext ((k, v) :: ctx) st build env = FromContext ctx st build env := by
  simp [FromContext, ctxValue, hk]

/-- Witness for C9: a plain string key "logger" written on top of the
private-key binding does not shadow it. -/
theorem fromContext_key_noninterference_witness :
    CtxKey.stringTy "logger" ≠ loggerKey ∧
    FromContext ((CtxKey.stringTy "logger", CtxVal.nat 7) ::
        (loggerKey, CtxVal.loggerPtr (some ZapLogger.nop.sugar)) :: [])
        initialGState zapBuild (fun _ => "") =
      FromContext ((loggerKey, CtxVal.loggerPtr (some ZapLogger.nop.sugar)) :: [])
        initialGState zapBuild (fun _ => "") :=
  ⟨by decide, fromContext_key_noninterference _ (by decide) _ _ _ _ _⟩

/-- Claim C10: attaching a nil logger bypasses the default fallback — the
typed nil `*zap.SugaredLogger` passes the type assertion, so retrieval
returns nil rather than the (always non-nil) default logger.  The
hypothesis restricts to reachable package states: before first use, or
with the default already constructed. -/
theorem fromContext_typed_nil (ctx : Context) (st : GState)
    (build : Config → Except String ZapLogger) (env : String → String)
    (h : st.onceDone = false ∨ st.defaultLogger.isSome) :
    ∃ ctx', WithLogger (some ctx) none = Except.ok ctx' ∧
      (FromContext ctx' st build env).1 = none ∧
      (FromContext ctx' st build env).1 ≠ (DefaultLogger st build env).1 := by
  refine ⟨(loggerKey, CtxVal.loggerPtr none) :: ctx, rfl, ?_, ?_⟩
  · simp [FromContext, ctxValue]
  · have hn : (FromContext ((loggerKey, CtxVal.loggerPtr none) :: ctx) st build env).1
        = none := by simp [FromContext, ctxValue]
    rw [hn]
    unfold DefaultLogger
    cases hb : st.onceDone with
    | false => simp [hb]
    | true =>
      rcases h with h | h
      · rw [hb] at h; exact absurd h (by simp)
      · obtain ⟨x, hx⟩ := Option.isSome_iff_exists.mp h
        simp [hb, hx]

/-- Witness for C10 at the empty context and the process-start state. -/
theorem fromContext_typed_nil_witness :
    (initialGState.onceDone = false ∨ initialGState.defaultLogger.isSome) ∧
    (∃ ctx', WithLogger (some []) none = Except.ok ctx' ∧
      (FromContext ctx' initialGState zapBuild (fun _ => "")).1 = none ∧
      (FromContext ctx' initialGState zapBuild (fun _ => "")).1 ≠
        (DefaultLogger initialGState zapBuild (fun _ => "")).1) :=
  ⟨Or.inl rfl,
   fromContext_typed_nil [] initialGState zapBuild (fun _ => "") (Or.inl rfl)⟩

end Logging
